import Mathlib

/-!
Verification of the Refactoring-Swarm repair engine.

Shallow embedding of the repository's core components:
  * the Test-Result Interpreter   (src/src/agents/judge.py, `_parse_pytest_output`,
    `_extract_error_logs`, `_analyze_failures_for_fixer`, `_parse_failure_details`,
    `run_tests`),
  * the Tolerance Evaluator       (judge.py, `evaluate_with_tolerance`),
  * the Fixer's `apply_fixes`     (src/src/agents/fixer.py),
  * the Repair Loop Controller and Mission Orchestrator (src/main.py,
    `process_file`, `run_swarm`, `main`).

Modelling conventions:
  * Python `str` is Lean `String`; machine integers are `Nat`; Python float
    division in the tolerance evaluator is modelled exactly over `ℚ`.
  * Regular-expression operations of the source are implemented as explicit
    character-list scanners with the same leftmost / greedy-with-backtracking
    semantics as Python `re` on the concrete patterns used by the source.
    `\w` is modelled as ASCII alphanumeric or underscore, `\s` as whitespace.
  * `str.splitlines` line counting treats `'\n'` as the line separator.
  * Fallible Python code is modelled with `Except`; exceptions that a function
    catches itself are part of its return value, uncaught ones are `.error`.
  * External LLM collaborators, the file system, and `log_experiment`
    telemetry (excluded from the core by spec §1) are modelled as oracle
    inputs; logging is modelled as effect-free.
-/

/-! ### String utilities (Python `in`, `lower`, `strip`, `split`, `splitlines`).
All primitives are structural recursions over `List Char`, so that every
definition evaluates inside the kernel. -/

/-- Does the character list `cs` start with the list `pat`? -/
def startsWithL : List Char → List Char → Bool
  | [], _ => true
  | _ :: _, [] => false
  | p :: ps, c :: rest => p == c && startsWithL ps rest

/-- Substring test on character lists. -/
def containsL (pat : List Char) : List Char → Bool
  | [] => startsWithL pat []
  | c :: rest => startsWithL pat (c :: rest) || containsL pat rest

/-- Python's substring test `pat in s` (for a non-empty pattern `pat`). -/
def pyContains (s pat : String) : Bool :=
  containsL pat.toList s.toList

/-- Python's `str.lower()` (ASCII fragment). -/
def lowerChars (cs : List Char) : List Char :=
  cs.map Char.toLower

/-- Python's `s.split('\n')`: the number of pieces is one more than the
number of newlines. -/
def splitOnNl : List Char → List (List Char)
  | [] => [[]]
  | c :: rest =>
    match splitOnNl rest with
    | [] => [[]]
    | l :: ls => if c == '\n' then [] :: l :: ls else (c :: l) :: ls

/-- Fuel-driven core of Python's `s.split(sep)` for a non-empty separator:
leftmost non-overlapping occurrences.  Each step consumes at least one
character, so fuel equal to the input length suffices. -/
def splitOnListAux (sep : List Char) : Nat → List Char → List Char → List (List Char)
  | 0, cs, acc => [acc.reverse ++ cs]
  | fuel + 1, cs, acc =>
    match cs with
    | [] => [acc.reverse]
    | c :: rest =>
      if startsWithL sep cs then
        acc.reverse :: splitOnListAux sep fuel (cs.drop sep.length) []
      else
        splitOnListAux sep fuel rest (c :: acc)

/-- Python's `s.split(sep)` for a non-empty separator. -/
def splitOnList (sep cs : List Char) : List (List Char) :=
  splitOnListAux sep cs.length cs []

/-- Python's `str.strip()`: drop whitespace from both ends. -/
def trimChars (cs : List Char) : List Char :=
  ((cs.dropWhile Char.isWhitespace).reverse.dropWhile Char.isWhitespace).reverse

/-- Join character lists with a separator (`sep.join(...)`). -/
def joinWith (sep : List Char) : List (List Char) → List Char
  | [] => []
  | [l] => l
  | l :: ls => l ++ sep ++ joinWith sep ls

/-- Join strings with a separator (`sep.join(...)`). -/
def joinStrings (sep : String) : List String → String
  | [] => ""
  | [s] => s
  | s :: rest => s ++ sep ++ joinStrings sep rest

/-- Character class `\w` of Python `re` (ASCII fragment): alphanumeric or underscore. -/
def isWordChar (c : Char) : Bool :=
  c.isAlphanum || c == '_'

/-- Numeric value of a run of decimal digit characters, as `int(...)` does. -/
def digitsVal (ds : List Char) : Nat :=
  ds.foldl (fun n c => n * 10 + (c.toNat - 48)) 0

/-- Line count as Python `len(s.splitlines())` computes it:
a trailing newline does not open a further line, and the empty string has
zero lines (`'\n'` is the modelled separator). -/
def pyLineCount (s : String) : Nat :=
  if s.toList.isEmpty then 0
  else
    let p := splitOnNl s.toList
    if p.getLast? = some [] then p.length - 1 else p.length

/-! ### Regex scanners used by `_parse_pytest_output` -/

/-- Matcher for the tail `\s+lit` of a pattern: at least one whitespace
character, then (after consuming one or more whitespace characters) the
literal `lit`, mirroring `re` backtracking on `\s+`. -/
def wsThenLit (lit : List Char) : List Char → Bool
  | [] => false
  | c :: rest => c.isWhitespace && (startsWithL lit rest || wsThenLit lit rest)

/-- Scanner for `re.search(r'(\d+)\s+<word>', line)`: leftmost position where a
maximal digit run is followed by whitespace and the literal `word`; returns the
numeric value of the digit run (the captured group). -/
def searchNumBefore (word : List Char) : List Char → Option Nat
  | [] => none
  | c :: rest =>
    if c.isDigit then
      let ds := c :: rest.takeWhile Char.isDigit
      let tail := rest.dropWhile Char.isDigit
      if wsThenLit word tail then some (digitsVal ds)
      else searchNumBefore word rest
    else searchNumBefore word rest

/-- Matcher for `collected\s+(\d+)\s+item` at the head of `cs`
(judge.py:489): returns the captured count. -/
def collectedAt (cs : List Char) : Option Nat :=
  if startsWithL "collected".toList cs then
    let r1 := cs.drop 9
    match r1 with
    | [] => none
    | c :: _ =>
      if c.isWhitespace then
        let r2 := r1.dropWhile Char.isWhitespace
        match r2 with
        | [] => none
        | d :: _ =>
          if d.isDigit then
            let ds := r2.takeWhile Char.isDigit
            let tail := r2.dropWhile Char.isDigit
            if wsThenLit "item".toList tail then some (digitsVal ds) else none
          else none
      else none
  else none

/-- Scanner for `re.search(r'collected\s+(\d+)\s+item', output)`. -/
def searchCollected : List Char → Option Nat
  | [] => none
  | c :: rest =>
    match collectedAt (c :: rest) with
    | some n => some n
    | none => searchCollected rest

/-! ### `_parse_pytest_output` (judge.py:439-503) -/

/-- Counts extracted from raw pytest output, mirroring the dict returned by
`JudgeAgent._parse_pytest_output`. -/
structure ParsedCounts where
  passed : Nat
  failed : Nat
  errors : Nat
  collection_error : Bool := false
deriving Repr, DecidableEq

/-- Embedding of `JudgeAgent._parse_pytest_output` (judge.py:439-503). -/
def parse_pytest_output (output : String) : ParsedCounts :=
  let low := lowerChars output.toList
  if containsL "ERROR".toList output.toList && containsL "collecting".toList low then
    { passed := 0, failed := 0, errors := 1, collection_error := true }
  else if containsL "no tests ran".toList low ||
          containsL "0 items collected".toList low then
    { passed := 0, failed := 0, errors := 1, collection_error := true }
  else
    let step := fun (acc : Nat × Nat × Nat) (line : List Char) =>
      if containsL "=====".toList line &&
          (containsL "passed".toList line || containsL "failed".toList line) then
        let p := (searchNumBefore "passed".toList line).getD acc.1
        let f := (searchNumBefore "failed".toList line).getD acc.2.1
        let e := (searchNumBefore "error".toList line).getD acc.2.2
        (p, f, e)
      else acc
    let r := (splitOnNl output.toList).foldl step (0, 0, 0)
    if r.1 = 0 ∧ r.2.1 = 0 ∧ r.2.2 = 0 then
      match searchCollected output.toList with
      | some collected =>
        if collected > 0 then { passed := 0, failed := 0, errors := 1 }
        else { passed := 0, failed := 0, errors := 0 }
      | none => { passed := 0, failed := 0, errors := 1 }
    else
      { passed := r.1, failed := r.2.1, errors := r.2.2 }

/-! ### `_extract_error_logs` (judge.py:505-526) -/

/-- Embedding of `JudgeAgent._extract_error_logs`: collect lines from the
first FAILURES/ERRORS/ERROR marker up to the short-summary marker; if nothing
was captured, return the last 30 lines of the raw output. -/
def extract_error_logs (output : String) : String :=
  let step := fun (st : Bool × List (List Char)) (line : List Char) =>
    let cap1 :=
      if containsL "FAILURES".toList line || containsL "ERRORS".toList line ||
          containsL "ERROR".toList line then
        true
      else st.1
    let cap2 :=
      if containsL "short test summary".toList (lowerChars line) then false else cap1
    (cap2, if cap2 then st.2 ++ [line] else st.2)
  let ls := splitOnNl output.toList
  let r := ls.foldl step (false, [])
  if r.2.isEmpty then
    String.mk (joinWith ['\n'] (ls.drop (ls.length - 30)))
  else
    String.mk (joinWith ['\n'] r.2)

/-! ### FixInstruction and `_parse_failure_details` (judge.py:552-691) -/

/-- One structured diagnostic handed to the Fixer.  The source represents it
as a dict; the free-text `description`, `suggestion`, `error_details`,
`expected`/`actual` fields (human-readable prose assembled at
judge.py:631-689 by string formatting) are not modelled, since no claim
constrains their content. -/
structure FixInstruction where
  severity : String
  category : String
  test_name : String
  error_type : String
deriving Repr, DecidableEq

/-- Error-type detection of `_parse_failure_details` (judge.py:657-667):
substring checks in priority order, with `'AssertionError'` both as the
initial value (judge.py:621) and as the default when no catalog entry
matches. -/
def detect_error_type (failure_content : String) : String :=
  if pyContains failure_content "KeyError" then "KeyError"
  else if pyContains failure_content "TypeError" then "TypeError"
  else if pyContains failure_content "ValueError" then "ValueError"
  else if pyContains failure_content "AttributeError" then "AttributeError"
  else if pyContains failure_content "IndexError" then "IndexError"
  else "AssertionError"

/-- Embedding of `JudgeAgent._parse_failure_details` (judge.py:613-691),
restricted to the modelled fields.  The function always returns a (truthy)
record, so the caller appends one instruction per parsed section. -/
def parse_failure_details (test_name failure_content : String) : FixInstruction :=
  { severity := "HIGH"
    category := "BUG"
    test_name := test_name
    error_type := detect_error_type failure_content }

/-! ### Section splitting: `re.split(r'_{3,}\s*(test_\w+)\s*_{3,}', output)`
(judge.py:568) -/

/-- Rightmost cut position `p ≥ 1` inside the word run `W` at which at least
three consecutive underscores start: the backtracking target of `\w+` when
the closing `_{3,}` of the separator must be matched inside `W` itself. -/
def lastTriplePos (W : List Char) : Option Nat :=
  ((List.range W.length).filter
    (fun p => decide (1 ≤ p) && decide (((W.drop p).takeWhile (· == '_')).length ≥ 3))).max?

/-- Match the separator `_{3,}\s*(test_\w+)\s*_{3,}` at the head of `cs`.
On success, return the captured group and the remainder of the input after
the match, following `re` greedy/backtracking semantics: the leading and
closing underscore runs are maximal, `\s*` runs are maximal, and `\w+` is
maximal subject to leaving at least three underscores for the closing run
(first trying the text after the word run, then backtracking into it). -/
def sep_match_at (cs : List Char) : Option (String × List Char) :=
  let u := cs.takeWhile (· == '_')
  if u.length < 3 then none
  else
    let r1 := cs.dropWhile (· == '_')
    let r2 := r1.dropWhile Char.isWhitespace
    if startsWithL "test_".toList r2 then
      let r3 := r2.drop 5
      let W := r3.takeWhile isWordChar
      let r4 := r3.dropWhile isWordChar
      if W.isEmpty then none
      else
        let r5 := r4.dropWhile Char.isWhitespace
        let u2 := r5.takeWhile (· == '_')
        if u2.length ≥ 3 then
          some ("test_" ++ String.mk W, r5.drop u2.length)
        else
          match lastTriplePos W with
          | some p =>
            let runLen := ((W.drop p).takeWhile (· == '_')).length
            some ("test_" ++ String.mk (W.take p), (W.drop (p + runLen)) ++ r4)
          | none => none
    else none

/-- Fuel-driven scanner implementing `re.split` with one capture group:
returns pieces interleaved with captured test names, `[p0, n1, p1, n2, …]`.
Each step consumes at least one input character, so fuel equal to the input
length makes the fuel-exhaustion branch unreachable. -/
def re_split_aux : Nat → List Char → List Char → List String
  | 0, cs, acc => [String.mk (acc.reverse ++ cs)]
  | fuel + 1, cs, acc =>
    match cs with
    | [] => [String.mk acc.reverse]
    | c :: rest =>
      match sep_match_at cs with
      | some (name, rem) => String.mk acc.reverse :: name :: re_split_aux fuel rem []
      | none => re_split_aux fuel rest (c :: acc)

/-- `re.split(r'_{3,}\s*(test_\w+)\s*_{3,}', output)` (judge.py:568). -/
def split_failure_sections (output : String) : List String :=
  re_split_aux output.toList.length output.toList []

/-- The pairing loop of judge.py:571-575: pairs `(sections[i], sections[i+1])`
for odd `i` with `i + 1 < len(sections)`. -/
def sectionPairs : List String → List (String × String)
  | _ :: n :: c :: rest => (n, c) :: sectionPairs (c :: rest)
  | _ => []

/-! ### Short-summary scan:
`re.findall(r'FAILED\s+[\w./]+::(test_\w+)\s*[-–]\s*(\w+(?:Error|Exception)?):?\s*(.*)', output)`
(judge.py:582-583) -/

/-- Character class `[\w./]` of the short-summary pattern. -/
def isLocatorChar (c : Char) : Bool :=
  isWordChar c || c == '.' || c == '/'

/-- Match the short-summary pattern at the head of `cs`.  Returns the three
captured groups (test name, error type, message) and the remainder of the
input after the match.  Greedy semantics: `\s+`/`\s*` runs and the `\w+`
runs are maximal (no shorter run can satisfy the following literal), `:?`
consumes a colon when present, and `(.*)` captures up to the next newline. -/
def matchFailedAt (cs : List Char) : Option ((String × String × String) × List Char) :=
  if startsWithL "FAILED".toList cs then
    let r1 := cs.drop 6
    match r1 with
    | [] => none
    | c :: _ =>
      if c.isWhitespace then
        let r2 := r1.dropWhile Char.isWhitespace
        let locator := r2.takeWhile isLocatorChar
        if locator.isEmpty then none
        else
          let r3 := r2.dropWhile isLocatorChar
          if startsWithL "::test_".toList r3 then
            let r4 := r3.drop 7
            let nm := r4.takeWhile isWordChar
            if nm.isEmpty then none
            else
              let r5 := r4.dropWhile isWordChar
              let r6 := r5.dropWhile Char.isWhitespace
              match r6 with
              | [] => none
              | d :: r7 =>
                if d == '-' || d == '–' then
                  let r8 := r7.dropWhile Char.isWhitespace
                  let et := r8.takeWhile isWordChar
                  if et.isEmpty then none
                  else
                    let r9 := r8.dropWhile isWordChar
                    let r10 := match r9 with
                      | ':' :: t => t
                      | _ => r9
                    let r11 := r10.dropWhile Char.isWhitespace
                    let msg := r11.takeWhile (· != '\n')
                    let rem := r11.dropWhile (· != '\n')
                    some ((("test_" ++ String.mk nm), String.mk et, String.mk msg), rem)
                else none
          else none
      else none
  else none

/-- Fuel-driven `re.findall` scanner for the short-summary pattern: leftmost
non-overlapping matches, resuming after each match.  Every step consumes at
least one character, so fuel equal to the input length suffices. -/
def findall_failed_aux : Nat → List Char → List (String × String × String)
  | 0, _ => []
  | fuel + 1, cs =>
    match cs with
    | [] => []
    | c :: rest =>
      match matchFailedAt (c :: rest) with
      | some (trip, rem) => trip :: findall_failed_aux fuel rem
      | none => findall_failed_aux fuel rest

/-- All short-summary failure triples of the raw output (judge.py:583). -/
def findall_failed (output : String) : List (String × String × String) :=
  findall_failed_aux output.toList.length output.toList

/-! ### `_analyze_failures_for_fixer` (judge.py:552-611) -/

/-- Instructions derived from per-test failure sections (judge.py:566-579). -/
def section_instructions (output : String) : List FixInstruction :=
  (sectionPairs (split_failure_sections output)).map
    (fun p => parse_failure_details p.1 p.2)

/-- Instructions added from the short summary for test names not already
captured by section parsing (judge.py:581-597).  Mirroring the source, the
set of already-seen names is computed once before the loop and not updated
while appending. -/
def summary_additions (existing : List FixInstruction) (output : String) :
    List FixInstruction :=
  let existingNames := existing.map (·.test_name)
  ((findall_failed output).filter (fun t => !existingNames.contains t.1)).map
    (fun t =>
      { severity := "HIGH"
        category := "BUG"
        test_name := t.1
        error_type := t.2.1 })

/-- The generic fallback instruction (judge.py:600-609); its `suggestion`
text quotes `extract_error_logs output` in the source. -/
def generic_instruction : FixInstruction :=
  { severity := "HIGH"
    category := "BUG"
    test_name := "unknown"
    error_type := "TestFailure" }

/-- Embedding of `JudgeAgent._analyze_failures_for_fixer` (judge.py:552-611):
per-section instructions, then short-summary additions, then — only when the
list is still empty AND the raw output contains `'FAILED'` or `'ERROR'` — the
single generic fallback instruction. -/
def analyze_failures_for_fixer (output : String) : List FixInstruction :=
  let sec := section_instructions output
  let all := sec ++ summary_additions sec output
  if all.isEmpty && (pyContains output "FAILED" || pyContains output "ERROR") then
    [generic_instruction]
  else all

/-! ### `run_tests` result interpretation (judge.py:106-180) -/

/-- The dict returned by `JudgeAgent.run_tests` on normal completion. -/
structure RunTestsResult where
  success : Bool
  passed : Nat
  failed : Nat
  errors : Nat
  output : String
  error_logs : String
  fix_instructions : List FixInstruction
deriving Repr, DecidableEq

/-- Embedding of the interpretation `run_tests` applies to the raw pytest
output on normal (non-timeout, non-crash) completion (judge.py:137-180):
parse counts, derive `success`, and attach error logs and fix instructions
only for unsuccessful runs. -/
def run_tests_from_output (output : String) : RunTestsResult :=
  let parsed := parse_pytest_output output
  let success := parsed.failed == 0 && parsed.errors == 0
  { success := success
    passed := parsed.passed
    failed := parsed.failed
    errors := parsed.errors
    output := output
    error_logs := if success then "" else extract_error_logs output
    fix_instructions := if success then [] else analyze_failures_for_fixer output }

/-! ### Tolerance Evaluator: `evaluate_with_tolerance` (judge.py:693-762) -/

/-- Class constant `JudgeAgent.PASS_RATE_THRESHOLD` (judge.py:13). -/
def PASS_RATE_THRESHOLD : ℚ := 9 / 10

/-- Class constant `JudgeAgent.MIN_TESTS_FOR_TOLERANCE` (judge.py:14). -/
def MIN_TESTS_FOR_TOLERANCE : Nat := 10

/-- The distinct human-readable `reason` strings of the tolerance verdict,
one constructor per format string of the source:
`noResultsAvailable` ↦ judge.py:718, `noTestsExecuted` ↦ judge.py:733,
`acceptableRobust` ↦ judge.py:745 (with enough samples, "... tests passés"),
`acceptableThin` ↦ judge.py:753 (thin sample, "... tests"),
`insufficientRate` ↦ judge.py:761. -/
inductive ToleranceReason where
  | noResultsAvailable
  | noTestsExecuted
  | acceptableRobust
  | acceptableThin
  | insufficientRate
deriving Repr, DecidableEq

/-- The dict returned by `evaluate_with_tolerance`. -/
structure ToleranceVerdict where
  acceptable : Bool
  pass_rate : ℚ
  passed : Nat
  failed : Nat
  reason : ToleranceReason
deriving Repr, DecidableEq

/-- Core of `evaluate_with_tolerance` once a results dict is present
(judge.py:721-762), parameterised by the minimum-sample floor so that its
irrelevance to the accept/reject decision can be stated.  Python's float
division `passed / total` is modelled exactly over `ℚ`. -/
def evaluate_core (minTests : Nat) (passed failed errors : Nat) : ToleranceVerdict :=
  let total := passed + failed + errors
  if total = 0 then
    { acceptable := false, pass_rate := 0, passed := 0, failed := 0
      reason := .noTestsExecuted }
  else
    let pass_rate : ℚ := (passed : ℚ) / (total : ℚ)
    if total ≥ minTests ∧ pass_rate ≥ PASS_RATE_THRESHOLD then
      { acceptable := true, pass_rate := pass_rate, passed := passed, failed := failed
        reason := .acceptableRobust }
    else if total < minTests ∧ pass_rate ≥ PASS_RATE_THRESHOLD then
      { acceptable := true, pass_rate := pass_rate, passed := passed, failed := failed
        reason := .acceptableThin }
    else
      { acceptable := false, pass_rate := pass_rate, passed := passed, failed := failed
        reason := .insufficientRate }

/-- Embedding of `JudgeAgent.evaluate_with_tolerance` (judge.py:693-762);
`none` models a falsy `test_results` argument (judge.py:712-719). -/
def evaluate_with_tolerance (test_results : Option RunTestsResult) : ToleranceVerdict :=
  match test_results with
  | none =>
    { acceptable := false, pass_rate := 0, passed := 0, failed := 0
      reason := .noResultsAvailable }
  | some tr => evaluate_core MIN_TESTS_FOR_TOLERANCE tr.passed tr.failed tr.errors

/-! ### Fixer: `apply_fixes` (fixer.py:20-99) -/

/-- An audit issue; only its presence matters to the modelled control flow
(the dict's fields feed the LLM prompt, which is outside the core). -/
abbrev Issue := String

/-- `_extract_code` (fixer.py:140-145): take the body of a ```python fenced
block, else of the first ``` fenced block, else the whole response; all
branches strip surrounding whitespace. -/
def extract_code (response : String) : String :=
  let cs := response.toList
  if containsL "```python".toList cs then
    String.mk (trimChars
      (((splitOnList "```".toList ((splitOnList "```python".toList cs).getD 1 [])).getD 0 [])))
  else if containsL "```".toList cs then
    String.mk (trimChars
      (((splitOnList "```".toList ((splitOnList "```".toList cs).getD 1 [])).getD 0 [])))
  else
    String.mk (trimChars cs)

/-- Suffixes of `cs` at which the `re.MULTILINE` anchor `^` matches: the whole
input plus the tail after every newline. -/
def lineStartSuffixesAux : List Char → List (List Char)
  | [] => []
  | c :: rest =>
    if c == '\n' then rest :: lineStartSuffixesAux rest
    else lineStartSuffixesAux rest

/-- All `^`-anchored suffixes of a string under `re.MULTILINE`. -/
def lineStartSuffixes (s : String) : List (List Char) :=
  s.toList :: lineStartSuffixesAux s.toList

/-- Match `kw\s+(\w+)\s*` followed by one of `closers` at the head of a
`^`-anchored suffix, returning the captured name: the shape of the patterns
`^def\s+(\w+)\s*\(` and `^class\s+(\w+)\s*[:\(]` (fixer.py:31-32). -/
def matchNamedDecl (kw : List Char) (closers : List Char) (cs : List Char) :
    Option String :=
  if startsWithL kw cs then
    let r1 := cs.drop kw.length
    match r1 with
    | [] => none
    | c :: _ =>
      if c.isWhitespace then
        let r2 := r1.dropWhile Char.isWhitespace
        let nm := r2.takeWhile isWordChar
        if nm.isEmpty then none
        else
          let r3 := (r2.dropWhile isWordChar).dropWhile Char.isWhitespace
          match r3 with
          | [] => none
          | d :: _ => if closers.contains d then some (String.mk nm) else none
      else none
  else none

/-- `re.findall(r'^def\s+(\w+)\s*\(', content, re.MULTILINE)` (fixer.py:31). -/
def def_names (content : String) : List String :=
  (lineStartSuffixes content).filterMap (matchNamedDecl "def".toList ['('])

/-- `re.findall(r'^class\s+(\w+)\s*[:\(]', content, re.MULTILINE)` (fixer.py:32). -/
def class_names (content : String) : List String :=
  (lineStartSuffixes content).filterMap (matchNamedDecl "class".toList [':', '('])

/-- The value `apply_fixes` produces at the Python boundary.  The source
encodes these as strings — `"1"` for the no-issues early return (fixer.py:26),
`"0"` for a failure caught by the `except` block (fixer.py:85-99), the fixed
code itself on success (fixer.py:83) — and raises only before the `try` block
(the `FileOperations.read_file` call, fixer.py:27). -/
inductive FixResult where
  | noIssues
  | failureCaught (err : String)
  | fixedOk (code : String)
  | raised (err : String)
deriving Repr, DecidableEq

/-- Result of one `apply_fixes` call together with the trace of file writes
it performed (`FileOperations.write_file` calls, fixer.py:67). -/
structure ApplyFixesOut where
  result : FixResult
  writes : List String
deriving Repr, DecidableEq

/-- Embedding of `FixerAgent.apply_fixes` (fixer.py:20-99).
`disk` is the current content of the target file (`none` models a missing
file, making `read_file` raise `FileNotFoundError` before the `try` block);
`llm` is the outcome of the chat-completion call (`.error` models an API
exception, which the `except` block catches).  The validations — non-empty
extracted code, at least half the original line count (`fixed <
original * 0.5` over floats is exactly `2 * fixed < original`), and
preservation of every original top-level `def`/`class` name — raise
`ValueError` inside the `try` block, which the `except` catches, logging the
failure and returning `"0"` without writing.  `log_experiment` is modelled
as effect-free. -/
def apply_fixes (issues : List Issue) (disk : Option String)
    (llm : Except String String) : ApplyFixesOut :=
  if issues.isEmpty then { result := .noIssues, writes := [] }
  else
    match disk with
    | none => { result := .raised "FileNotFoundError", writes := [] }
    | some content =>
      let original_line_count := pyLineCount content
      let original_functions := def_names content
      let original_classes := class_names content
      match llm with
      | .error e => { result := .failureCaught e, writes := [] }
      | .ok response =>
        let fixed_code := extract_code response
        if (trimChars fixed_code.toList).isEmpty then
          { result := .failureCaught "Le LLM a généré un code vide", writes := [] }
        else if 2 * pyLineCount fixed_code < original_line_count then
          { result := .failureCaught "Code trop court", writes := [] }
        else
          let fixed_functions := def_names fixed_code
          let fixed_classes := class_names fixed_code
          let missing_functions :=
            original_functions.filter (fun n => !fixed_functions.contains n)
          let missing_classes :=
            original_classes.filter (fun n => !fixed_classes.contains n)
          if !missing_functions.isEmpty || !missing_classes.isEmpty then
            { result := .failureCaught
                ("Éléments manquants dans le code corrigé: " ++
                  joinStrings ", " (missing_functions ++ missing_classes))
              writes := [] }
          else
            { result := .fixedOk fixed_code, writes := [fixed_code] }

/-! ### Repair Loop Controller and Mission Orchestrator (src/main.py) -/

/-- Configuration constant `MAX_ITERATIONS` (main.py:15). -/
def MAX_ITERATIONS : Nat := 10

/-- The dict returned by `JudgeAgent.judge` (judge.py:261-319) as the
controller sees it.  On a test-generation failure the source sets
`test_results` to `None` (judge.py:290-301); otherwise it is the
`run_tests` dict. -/
structure JudgeResult where
  success : Bool
  verdict : String
  test_results : Option RunTestsResult
  error_logs : String
  fix_instructions : List FixInstruction
deriving Repr, DecidableEq

/-- Uncaught Python runtime errors of the controller.  `typeError` models the
`TypeError: 'NoneType' object is not subscriptable` raised by
`judge_result['test_results']['passed']` at main.py:173 when
`test_results` is `None`. -/
inductive PyError where
  | typeError
deriving Repr, DecidableEq

/-- Outcome of the self-healing loop: the final judged state, the number of
completed loop iterations, and how many fixer / judge collaborator calls the
loop performed. -/
structure LoopOut where
  jr : JudgeResult
  iterations : Nat
  fixCalls : Nat
  judgeCalls : Nat
deriving Repr, DecidableEq

/-- Embedding of the self-healing `while` loop of `process_file`
(main.py:161-205).  `fx k` is the outcome of the `(k+1)`-th in-loop
`fixer.apply_fixes` call as the controller sees it (`.error` = the call
raised, triggering the `continue` at main.py:199-201); `jd k` is the result
of the `(k+1)`-th in-loop `judge.judge(..., regenerate_tests=False)` call.
`fuel` stands for `MAX_ITERATIONS - iteration`, so the loop condition
`iteration < MAX_ITERATIONS` is `fuel > 0`.  Each iteration first evaluates
the iteration-header print (main.py:170-173), which subscripts
`test_results['passed']` without a `None` guard and therefore raises
`TypeError` when `test_results` is `None`. -/
def self_heal_loop (fx : Nat → Except String String) (jd : Nat → JudgeResult) :
    Nat → Nat → Nat → Nat → JudgeResult → Except PyError LoopOut
  | 0, iter, fc, jc, jr => .ok ⟨jr, iter, fc, jc⟩
  | fuel + 1, iter, fc, jc, jr =>
    if jr.success then .ok ⟨jr, iter, fc, jc⟩
    else
      match jr.test_results with
      | none => .error .typeError
      | some _ =>
        match fx fc with
        | .error _ => self_heal_loop fx jd fuel (iter + 1) (fc + 1) jc jr
        | .ok _ => self_heal_loop fx jd fuel (iter + 1) (fc + 1) (jc + 1) (jd jc)

/-- External-collaborator behaviour for one file, as `process_file` observes
it: the pylint scores, the audit outcome, the initial fix outcome, the first
judge evaluation (`regenerate_tests=True`), and the streams of in-loop fix
and judge outcomes. -/
structure FileOracles where
  initial_score : ℚ
  final_score : ℚ
  audit : Except String (List Issue)
  initial_fix : Except String String
  judge_first : JudgeResult
  loop_fix : Nat → Except String String
  loop_judge : Nat → JudgeResult

/-- Per-file result dict of `process_file` (main.py:243-252).  The early
error returns of the source (main.py:139, 152) carry only `file`, `success`
and `error`; the remaining fields are modelled with zero defaults there. -/
structure FileResult where
  success : Bool
  error : Option String
  initial_score : ℚ
  final_score : ℚ
  iterations : Nat
  tests_passed : Nat
  tests_failed : Nat
  tolerance_applied : Bool
deriving Repr, DecidableEq

/-- Embedding of `process_file` (main.py:113-252): audit (failure terminal),
initial fix (a raising call is terminal), first judge run, self-healing loop,
then the tolerance check of main.py:210-222 and the final result dict.
An uncaught exception inside the loop propagates out of `process_file`. -/
def process_file (o : FileOracles) : Except PyError FileResult :=
  match o.audit with
  | .error e =>
    .ok { success := false, error := some ("Audit failed: " ++ e)
          initial_score := o.initial_score, final_score := 0, iterations := 0
          tests_passed := 0, tests_failed := 0, tolerance_applied := false }
  | .ok _issues =>
    match o.initial_fix with
    | .error e =>
      .ok { success := false, error := some ("Fix failed: " ++ e)
            initial_score := o.initial_score, final_score := 0, iterations := 0
            tests_passed := 0, tests_failed := 0, tolerance_applied := false }
    | .ok _ =>
      match self_heal_loop o.loop_fix o.loop_judge MAX_ITERATIONS 0 0 0 o.judge_first with
      | .error e => .error e
      | .ok out =>
        let jr := out.jr
        let tol :=
          if !jr.success && jr.test_results.isSome then
            (evaluate_with_tolerance jr.test_results).acceptable
          else false
        .ok { success := jr.success || tol
              error := none
              initial_score := o.initial_score
              final_score := o.final_score
              iterations := out.iterations
              tests_passed := match jr.test_results with | some tr => tr.passed | none => 0
              tests_failed := match jr.test_results with | some tr => tr.failed | none => 0
              tolerance_applied := tol }

/-- Run-level tally of `run_swarm` (main.py:69-74). -/
structure Tally where
  files_processed : Nat
  files_success : Nat
  files_failed : Nat
  details : List FileResult
deriving Repr, DecidableEq

/-- Value returned by `run_swarm`: either the early error dict
`{"success": False, "error": ...}` (main.py:57, 64) — which carries no
per-file tally — or the completed tally (main.py:110). -/
inductive RunResult where
  | errorResult (error : String)
  | completed (tally : Tally)
deriving Repr, DecidableEq

/-- The per-file loop of `run_swarm` (main.py:77-85).  `process_file` is not
wrapped in any `try`, so an exception it raises propagates and aborts the
whole run. -/
def run_swarm_go : List FileOracles → Tally → Except PyError RunResult
  | [], t => .ok (.completed t)
  | f :: rest, t =>
    match process_file f with
    | .error e => .error e
    | .ok r =>
      run_swarm_go rest
        { files_processed := t.files_processed + 1
          files_success := t.files_success + (if r.success then 1 else 0)
          files_failed := t.files_failed + (if r.success then 0 else 1)
          details := t.details ++ [r] }

/-- Embedding of `run_swarm` (main.py:18-110): agent initialisation (a raise
yields the error dict), file discovery (an empty list yields the error dict),
then the per-file loop. -/
def run_swarm (init : Except String Unit) (files : List FileOracles) :
    Except PyError RunResult :=
  match init with
  | .error e => .ok (.errorResult e)
  | .ok _ =>
    if files.isEmpty then .ok (.errorResult "No Python files found")
    else run_swarm_go files ⟨0, 0, 0, []⟩

/-- `results.get("files_failed", 0)` as `main` evaluates it (main.py:276):
the early error dicts have no `files_failed` key, so the default 0 is used. -/
def files_failed_get (r : RunResult) : Nat :=
  match r with
  | .errorResult _ => 0
  | .completed t => t.files_failed

/-- The exit decision of `main` (main.py:276-281): the process exit status
and whether the `MISSION_COMPLETE` marker is printed. -/
def main_verdict (r : RunResult) : Nat × Bool :=
  if files_failed_get r = 0 then (0, true) else (1, false)

/-! ## Claims -/

/-! ### C1: no false success on unparseable output -/

/-- C1 (code bug exhibit): the claim "for every raw output in which no pass,
fail, or error counts can be parsed, the interpreter reports at least one
errored unit, so `succeeded` is false" is violated by the code.  The raw
output `"collected 0 items"` contains no parseable counts, yet
`_parse_pytest_output` returns all-zero counts (the `'0 items collected'`
substring check at judge.py:458 never matches pytest's actual
`collected 0 items` word order, and the zero-count recovery at
judge.py:489-494 sets an error only when the collected count is positive),
so `run_tests` classifies the run as succeeded with no diagnostics. -/
theorem C1_ambiguous_output_classified_success :
    parse_pytest_output "collected 0 items" =
      { passed := 0, failed := 0, errors := 0, collection_error := false } ∧
    (run_tests_from_output "collected 0 items").success = true ∧
    (run_tests_from_output "collected 0 items").fix_instructions = [] := by
  refine ⟨by decide, by decide, by decide⟩

/-! ### C2: diagnostic non-emptiness for non-successful runs -/

/-- C2 counterexample: the raw output `"===== 1 failed ====="` parses to a
non-successful run (`failed = 1`), yet yields zero FixInstructions — section
parsing and short-summary parsing find nothing, and the generic fallback at
judge.py:600 is gated on the case-sensitive substrings `'FAILED'`/`'ERROR'`,
which this output lacks. -/
theorem C2_counterexample :
    (run_tests_from_output "===== 1 failed =====").success = false ∧
    (run_tests_from_output "===== 1 failed =====").fix_instructions = [] := by
  refine ⟨by decide, by decide⟩

/-- Helper for C2: under the `'FAILED'`/`'ERROR'` gate, the analysis never
returns an empty list. -/
theorem analyze_failures_nonempty (output : String)
    (hg : (pyContains output "FAILED" || pyContains output "ERROR") = true) :
    analyze_failures_for_fixer output ≠ [] := by
  unfold analyze_failures_for_fixer
  by_cases h :
      (section_instructions output ++
        summary_additions (section_instructions output) output).isEmpty
  · simp [h, hg]
  · simpa [h, hg] using (by simpa [List.isEmpty_iff] using h)

/-- C2 (amended): for every non-successful run whose raw output contains the
(case-sensitive) substring `'FAILED'` or `'ERROR'`, at least one
FixInstruction is produced; and when per-test section parsing and
short-summary parsing both yield nothing, the result is exactly the single
generic fallback instruction.  (As stated in the claim — without the
substring gate — the property fails; see the counterexample.) -/
theorem C2_diagnostics_nonempty_gated (output : String)
    (hg : (pyContains output "FAILED" || pyContains output "ERROR") = true)
    (hs : (run_tests_from_output output).success = false) :
    1 ≤ (run_tests_from_output output).fix_instructions.length ∧
    (section_instructions output = [] →
      summary_additions (section_instructions output) output = [] →
      (run_tests_from_output output).fix_instructions = [generic_instruction]) := by
  have hfi : (run_tests_from_output output).fix_instructions =
      analyze_failures_for_fixer output := by
    unfold run_tests_from_output at hs ⊢
    simp only at hs ⊢
    rw [if_neg (by simp [hs])]
  constructor
  · rw [hfi]
    have := analyze_failures_nonempty output hg
    exact Nat.one_le_iff_ne_zero.mpr (by simpa [List.length_eq_zero] using this)
  · intro h1 h2
    rw [h1] at h2
    rw [hfi]
    unfold analyze_failures_for_fixer
    simp [h1, h2, hg]

/-- C2 witness: the raw output `"FAILED"` is a non-successful run containing
the gating substring; both parsing phases yield nothing, and exactly the
generic fallback instruction is emitted. -/
theorem C2_diagnostics_witness :
    (pyContains "FAILED" "FAILED" || pyContains "FAILED" "ERROR") = true ∧
    (run_tests_from_output "FAILED").success = false ∧
    (run_tests_from_output "FAILED").fix_instructions = [generic_instruction] :=
  ⟨by decide, by decide,
    (C2_diagnostics_nonempty_gated "FAILED" (by decide) (by decide)).2
      (by decide) (by decide)⟩

/-! ### C3: one file's failure must not block the rest -/

/-- The judge result `judge` returns when test generation fails
(judge.py:289-301): not successful, `test_results = None`, one synthetic
fix instruction. -/
def genFailureJudgeResult : JudgeResult :=
  { success := false
    verdict := "FAIL"
    test_results := none
    error_logs := "Test generation failed: LLM generated empty test code"
    fix_instructions := [{ severity := "HIGH", category := "BUG"
                           test_name := "unknown", error_type := "BUG" }] }

/-- Oracles for a file whose very first judge evaluation reports a
test-generation failure. -/
def genFailureFile : FileOracles :=
  { initial_score := 0, final_score := 0
    audit := .ok ["issue"], initial_fix := .ok "fixed"
    judge_first := genFailureJudgeResult
    loop_fix := fun _ => .ok "fixed"
    loop_judge := fun _ => genFailureJudgeResult }

/-- Oracles for a file that passes its first judge evaluation. -/
def passingFile : FileOracles :=
  { initial_score := 0, final_score := 0
    audit := .ok ["issue"], initial_fix := .ok "fixed"
    judge_first :=
      { success := true, verdict := "PASS"
        test_results := some
          { success := true, passed := 3, failed := 0, errors := 0
            output := "===== 3 passed =====", error_logs := ""
            fix_instructions := [] }
        error_logs := "", fix_instructions := [] }
    loop_fix := fun _ => .ok "fixed"
    loop_judge := fun _ => genFailureJudgeResult }

/-- C3 (code bug exhibit): the claim "every discovered file is processed and
tallied; the failure of one file — including a test-generation failure inside
its repair loop — never prevents the remaining files from being processed" is
violated by the code.  With two files where the first file's test generation
fails (`judge` returns `success=False`, `test_results=None`), the loop body's
iteration-header print at main.py:173 subscripts
`judge_result['test_results']['passed']` without the `None` guard used one
line above, raising `TypeError`; `run_swarm` has no handler around
`process_file` (main.py:77-85), so the whole run aborts and the second file —
which on its own would be processed and tallied successfully — is never
reached and no tally is produced at all. -/
theorem C3_gen_failure_aborts_run :
    run_swarm (.ok ()) [genFailureFile, passingFile] = .error .typeError ∧
    (∃ t : Tally,
      run_swarm (.ok ()) [passingFile] = .ok (.completed t) ∧
      t.files_processed = 1 ∧ t.files_failed = 0) := by
  refine ⟨rfl, ⟨_, rfl, rfl, rfl⟩⟩

/-! ### C4: bounded, early-exiting self-healing loop -/

/-- Helper for C4: invariants of the self-healing loop, proved for every
fuel/counter configuration by induction on the remaining fuel. -/
theorem self_heal_loop_spec (fx : Nat → Except String String)
    (jd : Nat → JudgeResult) :
    ∀ (fuel iter fc jc : Nat) (jr : JudgeResult) (out : LoopOut),
      self_heal_loop fx jd fuel iter fc jc jr = .ok out →
      out.iterations ≤ iter + fuel ∧
      out.fixCalls + iter = out.iterations + fc ∧
      out.judgeCalls + fc ≤ jc + out.fixCalls ∧
      iter ≤ out.iterations ∧
      (out.iterations < iter + fuel → out.jr.success = true) := by
  intro fuel
  induction fuel with
  | zero =>
    intro iter fc jc jr out h
    simp only [self_heal_loop] at h
    cases h
    refine ⟨?_, ?_, ?_, ?_, ?_⟩ <;> simp <;> omega
  | succ fuel ih =>
    intro iter fc jc jr out h
    simp only [self_heal_loop] at h
    by_cases hs : jr.success
    · rw [if_pos hs] at h
      cases h
      refine ⟨?_, ?_, ?_, ?_, fun _ => hs⟩ <;> simp <;> omega
    · rw [if_neg hs] at h
      match htr : jr.test_results with
      | none => rw [htr] at h; cases h
      | some tr =>
        rw [htr] at h
        match hfx : fx fc with
        | .error e =>
          rw [hfx] at h
          have := ih (iter + 1) (fc + 1) jc jr out h
          refine ⟨by omega, by omega, by omega, by omega, fun hlt => this.2.2.2.2 (by omega)⟩
        | .ok v =>
          rw [hfx] at h
          have := ih (iter + 1) (fc + 1) (jc + 1) (jd jc) out h
          refine ⟨by omega, by omega, by omega, by omega, fun hlt => this.2.2.2.2 (by omega)⟩

/-- C4: the self-healing loop of `process_file` performs at most
`MAX_ITERATIONS = 10` iterations; each counted iteration performs exactly one
fix attempt and at most one judge re-evaluation; whenever the loop stops
before exhausting its budget it is because the current judge result reports
success; and if the initial judge evaluation already reports success the loop
exits immediately, performing no fix or judge calls at all.  Termination
itself is by construction: the loop is a structural recursion on the
remaining budget. -/
theorem C4_loop_bounded_and_early_exit (fx : Nat → Except String String)
    (jd : Nat → JudgeResult) (jr : JudgeResult) (out : LoopOut)
    (h : self_heal_loop fx jd MAX_ITERATIONS 0 0 0 jr = .ok out) :
    out.iterations ≤ MAX_ITERATIONS ∧
    out.fixCalls = out.iterations ∧
    out.judgeCalls ≤ out.iterations ∧
    (out.iterations < MAX_ITERATIONS → out.jr.success = true) ∧
    (jr.success = true → out = ⟨jr, 0, 0, 0⟩) := by
  have hspec := self_heal_loop_spec fx jd MAX_ITERATIONS 0 0 0 jr out h
  refine ⟨by omega, by omega, by omega, fun hlt => hspec.2.2.2.2 (by omega), ?_⟩
  intro hs
  unfold MAX_ITERATIONS self_heal_loop at h
  rw [if_pos hs] at h
  exact (Except.ok.inj h).symm

/-- C4 witness: a judge result that already reports success makes the loop
return immediately with zero iterations and zero collaborator calls. -/
theorem C4_loop_witness :
    self_heal_loop (fun _ => .ok "fixed")
      (fun _ => { success := true, verdict := "PASS", test_results := none
                  error_logs := "", fix_instructions := [] })
      MAX_ITERATIONS 0 0 0
      { success := true, verdict := "PASS", test_results := none
        error_logs := "", fix_instructions := [] } =
      .ok ⟨{ success := true, verdict := "PASS", test_results := none
             error_logs := "", fix_instructions := [] }, 0, 0, 0⟩ ∧
    (⟨{ success := true, verdict := "PASS", test_results := none
        error_logs := "", fix_instructions := [] }, 0, 0, 0⟩ : LoopOut).iterations ≤
      MAX_ITERATIONS :=
  ⟨rfl,
    (C4_loop_bounded_and_early_exit (fun _ => .ok "fixed")
      (fun _ => { success := true, verdict := "PASS", test_results := none
                  error_logs := "", fix_instructions := [] })
      { success := true, verdict := "PASS", test_results := none
        error_logs := "", fix_instructions := [] }
      ⟨{ success := true, verdict := "PASS", test_results := none
         error_logs := "", fix_instructions := [] }, 0, 0, 0⟩ rfl).1⟩

/-! ### C5 / C9: `apply_fixes` outcome analysis -/

/-- Helper: exhaustive case analysis of `apply_fixes`.  Every call ends in
one of four shapes: the no-issues no-op, the pre-`try` read failure (only
with a missing file and a non-empty issue list), a caught failure with no
write, or a successful fix that writes exactly the extracted code after all
three validations pass. -/
theorem apply_fixes_cases (issues : List Issue) (disk : Option String)
    (llm : Except String String) :
    (apply_fixes issues disk llm = { result := .noIssues, writes := [] }) ∨
    (apply_fixes issues disk llm =
        { result := .raised "FileNotFoundError", writes := [] } ∧
      disk = none ∧ issues ≠ []) ∨
    (∃ e, apply_fixes issues disk llm =
        { result := .failureCaught e, writes := [] }) ∨
    (∃ content response, disk = some content ∧ llm = .ok response ∧
      apply_fixes issues disk llm =
        { result := .fixedOk (extract_code response)
          writes := [extract_code response] } ∧
      (trimChars (extract_code response).toList).isEmpty = false ∧
      pyLineCount content ≤ 2 * pyLineCount (extract_code response) ∧
      (def_names content).filter
        (fun n => !(def_names (extract_code response)).contains n) = [] ∧
      (class_names content).filter
        (fun n => !(class_names (extract_code response)).contains n) = []) := by
  unfold apply_fixes
  by_cases hi : issues.isEmpty = true
  · left
    rw [if_pos hi]
  · rw [if_neg hi]
    rcases disk with _ | content
    · right; left
      refine ⟨by dsimp only, rfl, ?_⟩
      simpa [List.isEmpty_iff] using hi
    · rcases llm with e | response
      · right; right; left
        exact ⟨e, by dsimp only⟩
      · dsimp only
        by_cases h1 : (trimChars (extract_code response).toList).isEmpty = true
        · right; right; left
          exact ⟨_, by rw [if_pos h1]⟩
        · rw [if_neg h1]
          by_cases h2 : 2 * pyLineCount (extract_code response) < pyLineCount content
          · right; right; left
            exact ⟨_, by rw [if_pos h2]⟩
          · rw [if_neg h2]
            by_cases h3 :
                (!((def_names content).filter
                    (fun n => !(def_names (extract_code response)).contains n)).isEmpty ||
                 !((class_names content).filter
                    (fun n => !(class_names (extract_code response)).contains n)).isEmpty) = true
            · right; right; left
              exact ⟨_, by rw [if_pos h3]⟩
            · right; right; right
              refine ⟨content, response, rfl, rfl, by rw [if_neg h3], ?_, by omega, ?_, ?_⟩
              · simpa using h1
              · have h3' := (Bool.or_eq_false_iff.mp (eq_false_of_ne_true h3)).1
                simpa [List.isEmpty_iff] using h3'
              · have h3' := (Bool.or_eq_false_iff.mp (eq_false_of_ne_true h3)).2
                simpa [List.isEmpty_iff] using h3'

/-- C5 counterexample: an initial fix whose LLM answer drops the original
top-level function `foo` is rejected by the fixer's own validation, but —
contrary to the claim — no exception reaches the controller: the `except`
block of fixer.py:85-99 catches the `ValueError`, logs it and returns the
sentinel `"0"`, so `process_file`'s `try` around the initial fix never
fires and processing continues to the judge phase. -/
theorem C5_counterexample :
    apply_fixes ["issue"] (some "def foo():\n    return 1")
      (.ok "```python\ndef bar():\n    return 1\n```") =
    { result := .failureCaught "Éléments manquants dans le code corrigé: foo"
      writes := [] } := by
  decide

/-- C5 (amended): failures of the initial fix inside the fixer's `try` block
— LLM errors and the fixer's own validation rejections (empty extracted code,
less than half the original line count, dropped top-level names) — are caught
by `apply_fixes` itself, which logs them and returns the sentinel `"0"`
without writing; they are not surfaced as exceptions and do not end
processing of the file.  The only exception `apply_fixes` lets escape is the
pre-`try` `read_file` failure on a missing file (with a non-empty issue
list), and exactly when the controller observes a raising initial fix does
`process_file` end immediately with the "Fix failed" result. -/
theorem C5_initial_fix_failure_propagation :
    (∀ (issues : List Issue) (content : String) (llm : Except String String)
        (e : String),
      (apply_fixes issues (some content) llm).result ≠ .raised e) ∧
    (∀ (issues : List Issue) (disk : Option String) (llm : Except String String)
        (e : String),
      (apply_fixes issues disk llm).result = .failureCaught e →
      (apply_fixes issues disk llm).writes = []) ∧
    (∀ (issues : List Issue) (llm : Except String String), issues ≠ [] →
      apply_fixes issues none llm =
        { result := .raised "FileNotFoundError", writes := [] }) ∧
    (∀ (o : FileOracles) (iss : List Issue) (e : String),
      o.audit = .ok iss → o.initial_fix = .error e →
      process_file o =
        .ok { success := false, error := some ("Fix failed: " ++ e)
              initial_score := o.initial_score, final_score := 0, iterations := 0
              tests_passed := 0, tests_failed := 0, tolerance_applied := false }) := by
  refine ⟨?_, ?_, ?_, ?_⟩
  · intro issues content llm e h
    rcases apply_fixes_cases issues (some content) llm with hc | hc | ⟨e', hc⟩ |
        ⟨c, r, _, _, hc, _⟩
    · rw [hc] at h; exact FixResult.noConfusion h
    · exact Option.noConfusion hc.2.1
    · rw [hc] at h; exact FixResult.noConfusion h
    · rw [hc] at h; exact FixResult.noConfusion h
  · intro issues disk llm e h
    rcases apply_fixes_cases issues disk llm with hc | hc | ⟨e', hc⟩ |
        ⟨c, r, _, _, hc, _⟩
    · rw [hc]
    · rw [hc.1]
    · rw [hc]
    · rw [hc] at h; exact FixResult.noConfusion h
  · intro issues llm h
    unfold apply_fixes
    rw [if_neg (by simpa [List.isEmpty_iff] using h)]
  · intro o iss e haudit hfix
    unfold process_file
    rw [haudit, hfix]

/-- C5 witness: with a non-empty issue list and a missing target file,
`apply_fixes` raises `FileNotFoundError` to the controller. -/
theorem C5_initial_fix_witness :
    apply_fixes ["issue"] none (.ok "code") =
      { result := .raised "FileNotFoundError", writes := [] } :=
  C5_initial_fix_failure_propagation.2.2.1 ["issue"] (.ok "code") (by decide)

/-! ### C9: write discipline of `apply_fixes` -/

/-- C9: `apply_fixes` writes the target file at most once; whenever the call
fails — an uncaught exception or a failure caught by its `except` block — the
write trace is empty, so the file on disk keeps its previous content; and a
write happens only with the code extracted from a successful LLM response
that passed all validations: non-empty after stripping, at least half the
original line count, and every original top-level `def`/`class` name still
present. -/
theorem C9_write_discipline (issues : List Issue) (disk : Option String)
    (llm : Except String String) :
    (apply_fixes issues disk llm).writes.length ≤ 1 ∧
    (∀ e, (apply_fixes issues disk llm).result = .failureCaught e →
      (apply_fixes issues disk llm).writes = []) ∧
    (∀ e, (apply_fixes issues disk llm).result = .raised e →
      (apply_fixes issues disk llm).writes = []) ∧
    (∀ c, (apply_fixes issues disk llm).writes = [c] →
      ∃ content response, disk = some content ∧ llm = .ok response ∧
        c = extract_code response ∧
        (apply_fixes issues disk llm).result = .fixedOk c ∧
        (trimChars c.toList).isEmpty = false ∧
        pyLineCount content ≤ 2 * pyLineCount c ∧
        (def_names content).filter (fun n => !(def_names c).contains n) = [] ∧
        (class_names content).filter (fun n => !(class_names c).contains n) = []) := by
  rcases apply_fixes_cases issues disk llm with hc | hc | ⟨e', hc⟩ |
      ⟨content, response, hdisk, hllm, hc, hne, hlen, hdf, hcf⟩
  · rw [hc]
    exact ⟨by simp, fun e h => rfl, fun e h => rfl, fun c h => List.noConfusion h⟩
  · rw [hc.1]
    exact ⟨by simp, fun e h => rfl, fun e h => rfl, fun c h => List.noConfusion h⟩
  · rw [hc]
    exact ⟨by simp, fun e h => rfl, fun e h => rfl, fun c h => List.noConfusion h⟩
  · rw [hc]
    refine ⟨by simp, fun e h => FixResult.noConfusion h, fun e h => FixResult.noConfusion h,
      fun c h => ?_⟩
    obtain rfl : extract_code response = c := (List.cons.inj h).1
    exact ⟨content, response, hdisk, hllm, rfl, rfl, hne, hlen, hdf, hcf⟩

/-- C9 witness: a concrete successful fix call performs at most one write. -/
theorem C9_write_witness :
    (apply_fixes ["issue"] (some "def foo():\n    return 1")
      (.ok "```python\ndef foo():\n    return 2\n```")).writes.length ≤ 1 :=
  (C9_write_discipline ["issue"] (some "def foo():\n    return 1")
    (.ok "```python\ndef foo():\n    return 2\n```")).1

/-! ### C6 / C7: Tolerance Evaluator -/

/-- Helper: for a positive total, the accept/reject decision of
`evaluate_core` is exactly the pass-rate threshold test, for every value of
the minimum-sample floor. -/
theorem evaluate_core_acceptable (M p f e : Nat) (h : p + f + e ≠ 0) :
    (evaluate_core M p f e).acceptable =
      decide (PASS_RATE_THRESHOLD ≤ (p : ℚ) / ((p + f + e : Nat) : ℚ)) := by
  unfold evaluate_core
  rw [if_neg h]
  by_cases hr : PASS_RATE_THRESHOLD ≤ (p : ℚ) / ((p + f + e : Nat) : ℚ)
  · by_cases hm : p + f + e ≥ M
    · rw [if_pos ⟨hm, hr⟩]
      exact (decide_eq_true hr).symm
    · rw [if_neg (fun hand => hm hand.1), if_pos ⟨by omega, hr⟩]
      exact (decide_eq_true hr).symm
  · rw [if_neg (fun hand => hr hand.2), if_neg (fun hand => hr hand.2)]
    exact (decide_eq_false hr).symm

/-- C6: for every count triple with positive total, the Tolerance Evaluator
accepts exactly when `passed / total ≥ PASS_RATE_THRESHOLD = 9/10`; the
minimum-sample floor `MIN_TESTS_FOR_TOLERANCE = 10` never changes the
accept/reject decision (only the reason constructor), for any floor value. -/
theorem C6_threshold_decides_acceptance (tr : RunTestsResult)
    (h : 0 < tr.passed + tr.failed + tr.errors) :
    ((evaluate_with_tolerance (some tr)).acceptable = true ↔
      PASS_RATE_THRESHOLD ≤
        (tr.passed : ℚ) / ((tr.passed + tr.failed + tr.errors : Nat) : ℚ)) ∧
    (∀ M : Nat, (evaluate_core M tr.passed tr.failed tr.errors).acceptable =
      (evaluate_core MIN_TESTS_FOR_TOLERANCE tr.passed tr.failed tr.errors).acceptable) := by
  have hne : tr.passed + tr.failed + tr.errors ≠ 0 := by omega
  constructor
  · show (evaluate_core MIN_TESTS_FOR_TOLERANCE tr.passed tr.failed tr.errors).acceptable
        = true ↔ _
    rw [evaluate_core_acceptable _ _ _ _ hne]
    exact decide_eq_true_iff
  · intro M
    rw [evaluate_core_acceptable _ _ _ _ hne, evaluate_core_acceptable _ _ _ _ hne]

/-- C6 witness: at 9 passed, 1 failed, 0 errored, acceptance is exactly the
`9/10 ≥ 9/10` threshold test. -/
theorem C6_threshold_witness :
    0 < 9 + 1 + 0 ∧
    ((evaluate_with_tolerance (some
        { success := false, passed := 9, failed := 1, errors := 0
          output := "", error_logs := "", fix_instructions := [] })).acceptable = true ↔
      PASS_RATE_THRESHOLD ≤ ((9 : Nat) : ℚ) / (((9 + 1 + 0 : Nat)) : ℚ)) :=
  ⟨by decide,
    (C6_threshold_decides_acceptance
      { success := false, passed := 9, failed := 1, errors := 0
        output := "", error_logs := "", fix_instructions := [] } (by decide)).1⟩

/-- C7: with no test-results record at all, and likewise for every count
triple with `passed + failed + errored = 0`, the Tolerance Evaluator rejects
and reports a pass rate of `0.0`. -/
theorem C7_zero_total_rejected :
    ((evaluate_with_tolerance none).acceptable = false ∧
      (evaluate_with_tolerance none).pass_rate = 0) ∧
    (∀ tr : RunTestsResult, tr.passed + tr.failed + tr.errors = 0 →
      (evaluate_with_tolerance (some tr)).acceptable = false ∧
      (evaluate_with_tolerance (some tr)).pass_rate = 0) := by
  refine ⟨⟨rfl, rfl⟩, fun tr h => ?_⟩
  show (evaluate_core MIN_TESTS_FOR_TOLERANCE tr.passed tr.failed tr.errors).acceptable
        = false ∧
      (evaluate_core MIN_TESTS_FOR_TOLERANCE tr.passed tr.failed tr.errors).pass_rate = 0
  unfold evaluate_core
  rw [if_pos h]
  exact ⟨rfl, rfl⟩

/-- C7 witness: the all-zero count triple is rejected with pass rate `0`. -/
theorem C7_zero_total_witness :
    (0 : Nat) + 0 + 0 = 0 ∧
    (evaluate_with_tolerance (some
      { success := false, passed := 0, failed := 0, errors := 0
        output := "", error_logs := "", fix_instructions := [] })).acceptable = false :=
  ⟨rfl,
    (C7_zero_total_rejected.2
      { success := false, passed := 0, failed := 0, errors := 0
        output := "", error_logs := "", fix_instructions := [] } rfl).1⟩

/-! ### C8: error-type catalog of `_parse_failure_details` -/

/-- C8 counterexample: a failure section naming `ZeroDivisionError` — an
exception kind outside the fixed catalog — yields `error_type =
"AssertionError"` (the initial value at judge.py:621, left unchanged by the
substring checks at judge.py:658-667), not `"unknown"` as the claim states. -/
theorem C8_counterexample :
    (parse_failure_details "test_div"
      "E ZeroDivisionError: division by zero").error_type = "AssertionError" ∧
    (parse_failure_details "test_div"
      "E ZeroDivisionError: division by zero").error_type ≠ "unknown" := by
  refine ⟨by decide, by decide⟩

/-- C8 (amended): the `error_type` of a parsed failure section is always one
of `KeyError`, `TypeError`, `ValueError`, `AttributeError`, `IndexError`,
`AssertionError` — matched by substring in that priority order — and is never
`"unknown"`; any exception kind outside the catalog falls back to
`"AssertionError"`, not `"unknown"`. -/
theorem C8_error_type_catalog (name content : String) :
    ((parse_failure_details name content).error_type ∈
      (["KeyError", "TypeError", "ValueError", "AttributeError", "IndexError",
        "AssertionError"] : List String)) ∧
    (parse_failure_details name content).error_type ≠ "unknown" ∧
    (pyContains content "KeyError" = true →
      (parse_failure_details name content).error_type = "KeyError") ∧
    ((pyContains content "KeyError" || pyContains content "TypeError" ||
      pyContains content "ValueError" || pyContains content "AttributeError" ||
      pyContains content "IndexError") = false →
      (parse_failure_details name content).error_type = "AssertionError") := by
  unfold parse_failure_details detect_error_type
  by_cases h1 : pyContains content "KeyError" = true
  · simp [h1]
  · by_cases h2 : pyContains content "TypeError" = true
    · simp [h1, h2]
    · by_cases h3 : pyContains content "ValueError" = true
      · simp [h1, h2, h3]
      · by_cases h4 : pyContains content "AttributeError" = true
        · simp [h1, h2, h3, h4]
        · by_cases h5 : pyContains content "IndexError" = true
          · simp [h1, h2, h3, h4, h5]
          · simp [h1, h2, h3, h4, h5]

/-- C8 witness: a section containing `KeyError` is catalogued as such. -/
theorem C8_catalog_witness :
    pyContains "KeyError: boom" "KeyError" = true ∧
    (parse_failure_details "test_x" "KeyError: boom").error_type = "KeyError" :=
  ⟨by decide, (C8_error_type_catalog "test_x" "KeyError: boom").2.2.1 (by decide)⟩

/-! ### C10: empty mission still exits with the success marker -/

/-- C10: when no Python files are discovered, or agent initialisation raises,
`run_swarm` returns the early error dict — which carries no per-file tally
(`files_failed` is absent, so `results.get("files_failed", 0)` yields 0) —
and `main` then prints the `MISSION_COMPLETE` marker and exits with status 0
although no file was repaired. -/
theorem C10_empty_mission_exits_success (e : String) (files : List FileOracles) :
    run_swarm (.error e) files = .ok (.errorResult e) ∧
    files_failed_get (.errorResult e) = 0 ∧
    main_verdict (.errorResult e) = (0, true) ∧
    run_swarm (.ok ()) [] = .ok (.errorResult "No Python files found") ∧
    main_verdict (.errorResult "No Python files found") = (0, true) :=
  ⟨rfl, rfl, rfl, rfl, rfl⟩
